import Mathlib

/-!
Verification development for an ETW (Event Tracing for Windows) consumer tool written in Rust.
The sources are shallowly embedded: the OS tracing, schema and formatting services
(TdhGetEventInformation, TdhFormatProperty, ProcessTrace, OpenTraceA, StartTraceA, ControlTraceA)
are modelled as oracles, and the wrapper logic from
src/etw_constructs/tdh_wrapper.rs, consumer.rs, controller.rs and src/main.rs
is translated into executable Lean definitions over those oracles.
Machine integers are modelled as Nat; byte buffers as List Nat; wide strings as lists of
UTF-16 code units (Nat); panics and fallible operations as Option or Except.
-/

set_option autoImplicit false

namespace EtwTool

/-! Numeric values of the WIN32_ERROR status codes named by the sources. -/

def ERROR_SUCCESS : Nat := 0
def ERROR_INVALID_HANDLE : Nat := 6
def ERROR_BAD_LENGTH : Nat := 24
def ERROR_INVALID_PARAMETER : Nat := 87
def ERROR_INSUFFICIENT_BUFFER : Nat := 122
def ERROR_NOACCESS : Nat := 998
def ERROR_CANCELLED : Nat := 1223
def ERROR_INVALID_TIME : Nat := 1901
def ERROR_WMI_INSTANCE_NOT_FOUND : Nat := 4201

/-! Schema resolver: Tdh::get_event_information (src/etw_constructs/tdh_wrapper.rs, lines 65 to 91).

The OS call TdhGetEventInformation is modelled as an oracle.  A call either passes no output
buffer (the sizing phase, with the size out-parameter initialised to 0) or passes a freshly
allocated zeroed buffer of a given byte length.  `size` is the pair (status, value written into
the size out-parameter) observed on the sizing call; `data` maps the allocated buffer length to
the pair (status, buffer contents after the call). -/

structure GetInfoOracle where
  size : Nat × Nat
  data : Nat → Nat × List Nat

/-- One call made against the TdhGetEventInformation service: whether an output buffer was
passed, and the length of the buffer that was passed (0 when none). -/
structure TdhCall where
  hasBuffer : Bool
  bufSize : Nat
deriving DecidableEq

/-- Translation of Tdh::get_event_information.  The first call passes no buffer; a first status
other than ERROR_INSUFFICIENT_BUFFER is returned as an error.  Otherwise a buffer of exactly the
reported size is allocated and the call is repeated; ERROR_SUCCESS yields the buffer, anything
else is returned as an error.  The second component records the calls made, in order. -/
def getEventInformation (os : GetInfoOracle) : Except Nat (List Nat) × List TdhCall :=
  if os.size.1 ≠ ERROR_INSUFFICIENT_BUFFER then
    (Except.error os.size.1, [⟨false, 0⟩])
  else
    let r := os.data os.size.2
    ((if r.1 = ERROR_SUCCESS then Except.ok r.2 else Except.error r.1),
     [⟨false, 0⟩, ⟨true, os.size.2⟩])

/-! Property decoder: Tdh::format_property (src/etw_constructs/tdh_wrapper.rs, lines 95 to 142). -/

/-- The fields of an EVENT_PROPERTY_INFO entry that the sources read: the byte offset of the
property name inside the schema buffer, the declared in type, the optional out type (0 means
absent) and the declared length. -/
structure EventPropertyInfo where
  nameOffset : Nat
  inType : Nat
  outType : Nat
  length : Nat
deriving DecidableEq

/-- One call made against the TdhFormatProperty service, as the OS observes it: whether an
output buffer was passed and its element count, plus the argument values the wrapper passed. -/
structure FmtCall where
  hasBuffer : Bool
  bufSize : Nat
  pointerSize : Nat
  inType : Nat
  displayType : Nat
  length : Nat
  userdata : List Nat
deriving DecidableEq

/-- The TdhFormatProperty service modelled as an oracle: `size` is the pair (status, value
written into the buffer-size out-parameter) for a sizing call, `data` is the triple
(status, buffer contents after the call, value written into the consumed out-parameter) for a
call carrying a buffer.  Both may depend on every argument the wrapper passes. -/
structure FormatOracle where
  size : FmtCall → Nat × Nat
  data : FmtCall → Nat × (List Nat × Nat)

/-- The sizing call of format_property as the OS observes it: no buffer, buffer size 0, and
the display type resolved from the descriptor on src/etw_constructs/tdh_wrapper.rs lines 113
to 118 (the out type, unless it is 0, in which case the in type). -/
def fmtSizingCall (psize : Nat) (p : EventPropertyInfo) (ud : List Nat) : FmtCall :=
  ⟨false, 0, psize, p.inType, if p.outType = 0 then p.inType else p.outType, p.length, ud⟩

/-- The data call of format_property as the OS observes it: a buffer of n elements and the
same argument values as the sizing call. -/
def fmtDataCall (psize : Nat) (p : EventPropertyInfo) (ud : List Nat) (n : Nat) : FmtCall :=
  ⟨true, n, psize, p.inType, if p.outType = 0 then p.inType else p.outType, p.length, ud⟩

/-- Translation of Tdh::format_property.  The first call passes no buffer; a first status
other than ERROR_INSUFFICIENT_BUFFER is an error.  Otherwise a buffer of exactly the reported
element count is allocated and the call is repeated; ERROR_SUCCESS yields the buffer and the
consumed byte count, anything else is an error.  The second component records the calls made,
in order. -/
def formatProperty (os : FormatOracle) (pointerSize : Nat) (p : EventPropertyInfo)
    (userdata : List Nat) : Except Nat (List Nat × Nat) × List FmtCall :=
  let c0 := fmtSizingCall pointerSize p userdata
  let s0 := os.size c0
  if s0.1 ≠ ERROR_INSUFFICIENT_BUFFER then
    (Except.error s0.1, [c0])
  else
    let c1 := fmtDataCall pointerSize p userdata s0.2
    let r := os.data c1
    ((if r.1 = ERROR_SUCCESS then Except.ok r.2 else Except.error r.1), [c0, c1])

/-! Event projector: on_process_creation (src/main.rs, lines 21 to 107). -/

/-- Header flag values used by the pointer-size computation in src/main.rs. -/
def EVENT_HEADER_FLAG_32_BIT_HEADER : Nat := 32

def EVENT_HEADER_FLAG_64_BIT_HEADER : Nat := 64

/-- Value of mem::size_of::<*const u32>() on the 64-bit build the sources target. -/
def NATIVE_POINTER_SIZE : Nat := 8

/-- Pointer-size computation from src/main.rs lines 51 to 60: 4 if the 32-bit-header flag is
set, else 8 if the 64-bit-header flag is set, else the native pointer width. -/
def pointerSizeOf (flags : Nat) : Nat :=
  if flags.land EVENT_HEADER_FLAG_32_BIT_HEADER ≠ 0 then 4
  else if flags.land EVENT_HEADER_FLAG_64_BIT_HEADER ≠ 0 then 8
  else NATIVE_POINTER_SIZE

/-- The fields of an EVENT_RECORD that the sources read.  `userData` is the byte slice built
from the UserData pointer and UserDataLength, so its length is the declared payload length. -/
structure EventRecord where
  opcode : Nat
  flags : Nat
  processId : Nat
  userData : List Nat
deriving DecidableEq

/-- The parts of the TRACE_EVENT_INFO descriptor that the sources read, together with the raw
schema buffer it was cast from (names are decoded by indexing into that same buffer).
`props` is the property array of length PropertyCount built on src/main.rs lines 46 to 49. -/
structure TraceEventInfo where
  buf : List Nat
  propertyCount : Nat
  topLevelPropertyCount : Nat
  props : List EventPropertyInfo

/-- The chunks(2), from_le_bytes, take_while pipeline of src/main.rs lines 74 to 78, with the
lazy-iterator panic made explicit: pairs of bytes are turned into UTF-16 code units until the
first zero unit; pulling a final chunk of a single byte before a zero unit was found indexes
past the chunk end in the source and is a panic, modelled as none. -/
def u16unitsUntilNul : List Nat → Option (List Nat)
  | [] => some []
  | [_] => none
  | a :: b :: rest =>
    if a + 256 * b = 0 then some []
    else (u16unitsUntilNul rest).map (fun us => (a + 256 * b) :: us)

/-- Name decoding from src/main.rs lines 73 to 81: slice the schema buffer from the recorded
name offset (a start index past the end of the buffer panics in the source, modelled as none)
and read UTF-16 code units until the first zero unit. -/
def decodeName (buf : List Nat) (off : Nat) : Option (List Nat) :=
  if off ≤ buf.length then u16unitsUntilNul (buf.drop off) else none

/-- Value truncation from src/main.rs lines 84 to 91: keep the bytes of the formatted buffer
up to, and not including, its first zero code unit (all of it when no zero occurs). -/
def truncAtNul (data : List Nat) : List Nat :=
  data.takeWhile (fun x => x != 0)

/-- Insertion into the result map, with the replace-on-duplicate-key semantics of
HashMap::insert.  The map is carried as an association list. -/
def mapInsert (m : List (List Nat × List Nat)) (k v : List Nat) :
    List (List Nat × List Nat) :=
  if m.any (fun e => decide (e.1 = k)) then
    m.map (fun e => if e.1 = k then (k, v) else e)
  else m ++ [(k, v)]

/-- One iteration of the decode loop as observed from outside: the property descriptor
processed, the remaining payload slice the decoder was given, the decoded name and truncated
value, and the consumed byte count by which the cursor then advanced. -/
structure ProjStep where
  prop : EventPropertyInfo
  udArg : List Nat
  name : List Nat
  value : List Nat
  consumed : Nat
deriving DecidableEq

/-- The decode loop of src/main.rs lines 67 to 98, one property at a time: format the property
against the current remaining payload (an error status panics through expect, modelled as
none), decode the name from the schema buffer, truncate the value at its first zero unit,
insert into the map, then advance the payload cursor by the consumed count (advancing past the
end of the remaining slice panics in the source, modelled as none).  On completion it returns
the map together with the per-iteration steps. -/
def projectLoop (os : FormatOracle) (buf : List Nat) (psize : Nat) :
    List EventPropertyInfo → List Nat → List (List Nat × List Nat) →
    Option (List (List Nat × List Nat) × List ProjStep)
  | [], _, m => some (m, [])
  | p :: ps, ud, m =>
    (formatProperty os psize p ud).1.toOption.bind fun r =>
      (decodeName buf p.nameOffset).bind fun name =>
        if r.2 ≤ ud.length then
          (projectLoop os buf psize ps (ud.drop r.2)
              (mapInsert m name (truncAtNul r.1))).bind fun res =>
            some (res.1, ⟨p, ud, name, truncAtNul r.1, r.2⟩ :: res.2)
        else none

/-- The outcome of one callback invocation: filtered out before any schema resolution,
panicked partway (a failed expect or a slicing panic), or completed with the decoded map. -/
inductive ProjOutcome where
  | filtered
  | panicked
  | done (m : List (List Nat × List Nat)) (steps : List ProjStep)
deriving DecidableEq

/-- Projection of the decoded map out of an outcome. -/
def outcomeMap : ProjOutcome → Option (List (List Nat × List Nat))
  | ProjOutcome.done m _ => some m
  | _ => none

/-- Projection of the recorded steps out of an outcome. -/
def outcomeSteps : ProjOutcome → Option (List ProjStep)
  | ProjOutcome.done _ steps => some steps
  | _ => none

/-- Translation of on_process_creation (src/main.rs).  The event is ignored when its opcode is
not in the accepted list [1] or its payload length is zero (line 27).  Otherwise the schema is
resolved through Tdh::get_event_information, whose outcome is abstracted as `resolve` (an
error status panics through expect); the pointer size is computed from the header flags; and
the decode loop runs over the first TopLevelPropertyCount entries of the property array.  The
second component counts the schema-resolution calls made. -/
def onProcessCreation (resolve : Except Nat TraceEventInfo) (os : FormatOracle)
    (rec : EventRecord) : ProjOutcome × Nat :=
  if ([1] : List Nat).contains rec.opcode = false ∨ rec.userData.length = 0 then
    (ProjOutcome.filtered, 0)
  else
    match resolve with
    | Except.error _ => (ProjOutcome.panicked, 1)
    | Except.ok ti =>
      match projectLoop os ti.buf (pointerSizeOf rec.flags)
          (ti.props.take ti.topLevelPropertyCount) rec.userData [] with
      | none => (ProjOutcome.panicked, 1)
      | some res => (ProjOutcome.done res.1 res.2, 1)

/-! Specification-side projector, for the refinement claim about the decode loop. -/

/-- Pairing of consecutive bytes into UTF-16 code units, used by the specification-side name
reading; a trailing odd byte is not a full code unit and is not produced. -/
def pairUp : List Nat → List Nat
  | a :: b :: rest => (a + 256 * b) :: pairUp rest
  | _ => []

/-- Written from the specification, for comparison with the code translation: the name is read
as UTF-16 code units starting at the property's recorded name offset inside the schema buffer,
until a zero code unit. -/
def specNameUnits (buf : List Nat) (off : Nat) : List Nat :=
  (pairUp (buf.drop off)).takeWhile (fun u => u != 0)

/-- The successful output of the Property Decoder on a given descriptor and payload slice
(the formatted buffer and the consumed byte count); a failing decoder has no successful
output and this returns a junk value never used under the success hypotheses. -/
def specDec (os : FormatOracle) (psize : Nat) (p : EventPropertyInfo) (ud : List Nat) :
    List Nat × Nat :=
  match (formatProperty os psize p ud).1 with
  | Except.ok r => r
  | Except.error _ => ([], 0)

/-- Written from the specification, for comparison with the code translation: iterate the
given property entries in schema order; for each, decode the value via the Property Decoder
against the current remaining payload slice, truncate it at its first zero code unit, insert
into the result map keyed by the name read at the recorded name offset, and advance the
payload cursor forward by exactly the reported consumed byte count. -/
def projectSpecLoop (os : FormatOracle) (psize : Nat) (buf : List Nat) :
    List EventPropertyInfo → List Nat → List (List Nat × List Nat) →
    List (List Nat × List Nat)
  | [], _, m => m
  | p :: ps, ud, m =>
    let r := specDec os psize p ud
    projectSpecLoop os psize buf ps (ud.drop r.2)
      (mapInsert m (specNameUnits buf p.nameOffset) (truncAtNul r.1))

/-! Session consumer: src/etw_constructs/consumer.rs. -/

/-- The SIGINT OnceLock set operation (used by the interrupt handler in src/main.rs lines 112
to 117): setting an empty cell succeeds and fills it, setting a filled cell is an error and
leaves the stored value untouched.  The first component reports whether the set succeeded. -/
def sigintSet : Option Unit → Bool × Option Unit
  | none => (true, some ())
  | some u => (false, some u)

/-- Translation of on_termination (src/etw_constructs/consumer.rs lines 31 to 33): the buffer
callback returns SIGINT.get().is_none() as u32, so 1 (keep pumping) while the flag is unset
and 0 (stop) once it is set. -/
def onTermination (flag : Option Unit) : Nat :=
  if flag.isNone then 1 else 0

/-- Modelled from the spec: the blocking pump (the OS ProcessTrace call) is external code, not
part of this repository.  Per the specification, the buffer-availability checkpoint supplied
to the pump is invoked periodically, reads the cancellation flag and returns a value that
tells the pump to stop after the current buffer, not mid-event; the pump otherwise delivers
the buffered events in order and returns on natural completion.  `flagAt i` is the state of
the cancellation flag at the i-th checkpoint; the result is the list of events delivered. -/
def pumpRun (flagAt : Nat → Option Unit) : List (List Nat) → Nat → List Nat
  | [], _ => []
  | buf :: bufs, i =>
    if onTermination (flagAt i) = 0 then []
    else buf ++ pumpRun flagAt bufs (i + 1)

/-- Invalid handle value that OpenTraceA returns when it fails to open the consumption
handle, as a 64-bit value. -/
def INVALID_PROCESSTRACE_HANDLE : Nat := 2 ^ 64 - 1

/-- The Consumer state built by Consumer::new: the handle returned by OpenTraceA and the
recorded current time. -/
structure Consumer where
  reghandle : Nat
  currentTime : Nat
deriving DecidableEq

/-- Translation of Consumer::new (src/etw_constructs/consumer.rs lines 39 to 61).  The OS open
call is abstracted by its returned handle value `openResult`; the time conversion is
abstracted by `timeResult`, whose failure panics through expect (modelled as none).  The
returned handle is stored unconditionally: the source contains no inspection of it. -/
def consumerNew (openResult : Nat) (timeResult : Option Nat) : Option Consumer :=
  match timeResult with
  | none => none
  | some t => some { reghandle := openResult, currentTime := t }

/-- Outcome of Consumer::start_listening: either a normal return or a panic carrying the
panic message. -/
inductive PumpOutcome where
  | normal
  | fatal (msg : String)
deriving DecidableEq

def MSG_BAD_LENGTH : String :=
  "HandleCount is not valid or the number of handles is greater than 64."

def MSG_INVALID_HANDLE : String :=
  "An element of HandleArray is not a valid event tracing session handle."

def MSG_INVALID_TIME : String :=
  "EndTime is less than StartTime."

def MSG_INVALID_PARAMETER : String :=
  "HandleArray is NULL, contains both file processing sessions and real-time processing sessions, or contains more than one real-time processing session."

def MSG_CALLBACK_EXCEPTION : String :=
  "An exception occurred in one of the callback functions that receives the events."

def MSG_NOT_REALTIME : String :=
  "The trace collection session from which you are trying to consume events in real time is not running or does not have the real-time trace mode enabled."

/-- Message of the catch-all arm of start_listening, carrying the numeric status code the
debug formatting of WIN32_ERROR prints. -/
def MSG_UNSPECIFIED (code : Nat) : String :=
  "Unspecified Error: WIN32_ERROR(" ++ Nat.repr code ++ ")"

/-- Translation of Consumer::start_listening (src/etw_constructs/consumer.rs lines 64 to 97),
as a function of the status the blocking ProcessTrace call returned: success returns normally
and every other status panics with the message of its match arm. -/
def startListening (status : Nat) : PumpOutcome :=
  if status = ERROR_SUCCESS then PumpOutcome.normal
  else if status = ERROR_BAD_LENGTH then PumpOutcome.fatal MSG_BAD_LENGTH
  else if status = ERROR_INVALID_HANDLE then PumpOutcome.fatal MSG_INVALID_HANDLE
  else if status = ERROR_INVALID_TIME then PumpOutcome.fatal MSG_INVALID_TIME
  else if status = ERROR_INVALID_PARAMETER then PumpOutcome.fatal MSG_INVALID_PARAMETER
  else if status = ERROR_NOACCESS then PumpOutcome.fatal MSG_CALLBACK_EXCEPTION
  else if status = ERROR_CANCELLED then PumpOutcome.fatal MSG_CALLBACK_EXCEPTION
  else if status = ERROR_WMI_INSTANCE_NOT_FOUND then PumpOutcome.fatal MSG_NOT_REALTIME
  else PumpOutcome.fatal (MSG_UNSPECIFIED status)

/-! Session controller: src/etw_constructs/controller.rs. -/

def WNODE_FLAG_TRACED_GUID : Nat := 0x00020000

def EVENT_TRACE_FLAG_PROCESS : Nat := 0x00000001

def EVENT_TRACE_REAL_TIME_MODE : Nat := 0x00000100

def EVENT_TRACE_SYSTEM_LOGGER_MODE : Nat := 0x02000000

def EVENT_TRACE_CONTROL_STOP : Nat := 1

/-- Little-endian byte encoding of a 32-bit value. -/
def u32le (n : Nat) : List Nat :=
  [n % 256, n / 256 % 256, n / 2 ^ 16 % 256, n / 2 ^ 24 % 256]

/-- Little-endian byte encoding of a 64-bit value. -/
def u64le (n : Nat) : List Nat :=
  u32le (n % 2 ^ 32) ++ u32le (n / 2 ^ 32)

/-- Byte representation of SystemTraceControlGuid, 9E814AAD-3204-11D2-9A82-006008A86939, in
its in-memory GUID layout. -/
def SystemTraceControlGuidBytes : List Nat :=
  [173, 74, 129, 158, 4, 50, 210, 17, 154, 130, 0, 96, 8, 168, 105, 57]

/-- The WNODE_HEADER fields, each modelled at its declared width. -/
structure WnodeHeader where
  bufferSize : Nat
  providerId : Nat
  historicalContext : Nat
  kernelHandle : Nat
  guid : List Nat
  clientContext : Nat
  flags : Nat

/-- The EVENT_TRACE_PROPERTIES fields, each modelled at its declared width. -/
structure EventTraceProperties where
  wnode : WnodeHeader
  bufferSize : Nat
  minimumBuffers : Nat
  maximumBuffers : Nat
  maximumFileSize : Nat
  logFileMode : Nat
  flushTimer : Nat
  enableFlags : Nat
  ageLimit : Nat
  numberOfBuffers : Nat
  freeBuffers : Nat
  eventsLost : Nat
  buffersWritten : Nat
  logBuffersLost : Nat
  realTimeBuffersLost : Nat
  loggerThreadId : Nat
  logFileNameOffset : Nat
  loggerNameOffset : Nat

/-- In-memory byte serialization of a WNODE_HEADER (48 bytes). -/
def wnodeBytes (w : WnodeHeader) : List Nat :=
  u32le w.bufferSize ++ u32le w.providerId ++ u64le w.historicalContext ++
    u64le w.kernelHandle ++ w.guid ++ u32le w.clientContext ++ u32le w.flags

/-- In-memory byte serialization of an EVENT_TRACE_PROPERTIES structure (120 bytes),
matching the raw-byte copy made on src/etw_constructs/controller.rs lines 57 to 62. -/
def etwPropsBytes (p : EventTraceProperties) : List Nat :=
  wnodeBytes p.wnode ++ u32le p.bufferSize ++ u32le p.minimumBuffers ++
    u32le p.maximumBuffers ++ u32le p.maximumFileSize ++ u32le p.logFileMode ++
    u32le p.flushTimer ++ u32le p.enableFlags ++ u32le p.ageLimit ++
    u32le p.numberOfBuffers ++ u32le p.freeBuffers ++ u32le p.eventsLost ++
    u32le p.buffersWritten ++ u32le p.logBuffersLost ++ u32le p.realTimeBuffersLost ++
    u64le p.loggerThreadId ++ u32le p.logFileNameOffset ++ u32le p.loggerNameOffset

/-- Byte size of the EVENT_TRACE_PROPERTIES structure on the 64-bit build. -/
def EVENT_TRACE_PROPERTIES_SIZE : Nat := 120

/-- The properties value built in the temporary block of Controller::new
(src/etw_constructs/controller.rs lines 42 to 55), as a function of the NUL-terminated
session name bytes: every field not listed there is default-initialised to zero, the Wnode
buffer size is the capacity requested for the backing buffer, and the logger name offset is
the byte size of the properties structure. -/
def controllerProps (nameWithNul : List Nat) : EventTraceProperties :=
  { wnode :=
      { bufferSize := EVENT_TRACE_PROPERTIES_SIZE + nameWithNul.length
        providerId := 0
        historicalContext := 0
        kernelHandle := 0
        guid := SystemTraceControlGuidBytes
        clientContext := 1
        flags := WNODE_FLAG_TRACED_GUID }
    bufferSize := 0
    minimumBuffers := 0
    maximumBuffers := 0
    maximumFileSize := 0
    logFileMode := EVENT_TRACE_REAL_TIME_MODE + EVENT_TRACE_SYSTEM_LOGGER_MODE
    flushTimer := 0
    enableFlags := EVENT_TRACE_FLAG_PROCESS
    ageLimit := 0
    numberOfBuffers := 0
    freeBuffers := 0
    eventsLost := 0
    buffersWritten := 0
    logBuffersLost := 0
    realTimeBuffersLost := 0
    loggerThreadId := 0
    logFileNameOffset := 0
    loggerNameOffset := EVENT_TRACE_PROPERTIES_SIZE }

/-- A Vec of bytes, carrying its requested capacity and its contents. -/
structure PropBuf where
  cap : Nat
  data : List Nat
deriving DecidableEq

/-- The buffer-construction phase of Controller::new (src/etw_constructs/controller.rs lines
35 to 63): allocate capacity for the properties structure plus the NUL-terminated session
name, then extend the empty buffer with the raw bytes of the properties structure alone. -/
def controllerBuildBuf (nameWithNul : List Nat) : PropBuf :=
  { cap := EVENT_TRACE_PROPERTIES_SIZE + nameWithNul.length
    data := etwPropsBytes (controllerProps nameWithNul) }

/-- Sentinel against which the Drop implementation compares the control handle:
INVALID_HANDLE_VALUE, the all-ones 64-bit pointer value. -/
def INVALID_HANDLE_VALUE : Nat := 2 ^ 64 - 1

/-- The Controller state: the handle returned by StartTraceA, the session name bytes and the
backing properties buffer. -/
structure Controller where
  traceHandle : Nat
  sessionName : List Nat
  eventPropBuf : PropBuf
deriving DecidableEq

/-- The arguments of a ControlTraceA stop request issued during Drop. -/
structure StopCall where
  handle : Nat
  sessionName : List Nat
  propsData : List Nat
  controlCode : Nat
deriving DecidableEq

/-- Translation of the Drop implementation for Controller (src/etw_constructs/controller.rs
lines 142 to 157): the stop request is issued exactly when the held handle differs from
INVALID_HANDLE_VALUE, and carries the stored handle, session name and properties buffer with
the EVENT_TRACE_CONTROL_STOP code; otherwise nothing is issued. -/
def controllerDrop (c : Controller) : Option StopCall :=
  if c.traceHandle ≠ INVALID_HANDLE_VALUE then
    some ⟨c.traceHandle, c.sessionName, c.eventPropBuf.data, EVENT_TRACE_CONTROL_STOP⟩
  else none

/-! Sample values used by the theorems and their witnesses. -/

/-- Sample formatting oracle: the sizing phase always reports buffer-too-small with required
size 3, the data phase succeeds with a fixed NUL-terminated wide string and consumes at most
two bytes of the payload it is shown. -/
def sampleFmtOracle : FormatOracle :=
  { size := fun _ => (ERROR_INSUFFICIENT_BUFFER, 3)
    data := fun c => (ERROR_SUCCESS, ([72, 0, 99], min 2 c.userdata.length)) }

/-- Sample schema descriptor with two top-level properties whose names are the single code
units 65 and 66, recorded at byte offsets 0 and 4 of the schema buffer. -/
def sampleTraceInfo : TraceEventInfo :=
  { buf := [65, 0, 0, 0, 66, 0, 0, 0]
    propertyCount := 2
    topLevelPropertyCount := 2
    props := [⟨0, 1, 0, 2⟩, ⟨4, 1, 0, 2⟩] }

/-- Sample accepted event record: opcode 1, four payload bytes. -/
def sampleRecord : EventRecord := ⟨1, 0, 42, [10, 20, 30, 40]⟩

/-- Sample controller whose handle is 0, the value the claims call the invalid sentinel. -/
def c7SampleController : Controller := ⟨0, [78, 84, 0], ⟨5, [9, 9]⟩⟩

/-! Theorems settling the claims. -/

/-- C1: For every call of the Schema Resolver (get_event_information) and of the Property
Decoder (format_property), the sizing phase is invoked exactly once with no output buffer; if
its status is anything other than buffer-too-small, including immediate success, that status
is returned as an error and no further call is made; otherwise a buffer of exactly the reported
size is allocated and the call is made a second time, success yielding the result and any
other second-phase status returned as an error carrying the OS status code, with no retries
beyond this two-phase sequence. -/
theorem c1_two_phase_protocol (gos : GetInfoOracle) (fos : FormatOracle) (psize : Nat)
    (p : EventPropertyInfo) (ud : List Nat) :
    (((getEventInformation gos).2.filter fun c => !c.hasBuffer) = [⟨false, 0⟩]
      ∧ (gos.size.1 ≠ ERROR_INSUFFICIENT_BUFFER →
          getEventInformation gos = (Except.error gos.size.1, [⟨false, 0⟩]))
      ∧ (gos.size.1 = ERROR_INSUFFICIENT_BUFFER →
          (getEventInformation gos).2 = [⟨false, 0⟩, ⟨true, gos.size.2⟩]
          ∧ ((gos.data gos.size.2).1 = ERROR_SUCCESS →
              (getEventInformation gos).1 = Except.ok (gos.data gos.size.2).2)
          ∧ ((gos.data gos.size.2).1 ≠ ERROR_SUCCESS →
              (getEventInformation gos).1 = Except.error (gos.data gos.size.2).1)))
    ∧ (((formatProperty fos psize p ud).2.filter fun c => !c.hasBuffer)
          = [fmtSizingCall psize p ud]
      ∧ ((fos.size (fmtSizingCall psize p ud)).1 ≠ ERROR_INSUFFICIENT_BUFFER →
          formatProperty fos psize p ud
            = (Except.error (fos.size (fmtSizingCall psize p ud)).1, [fmtSizingCall psize p ud]))
      ∧ ((fos.size (fmtSizingCall psize p ud)).1 = ERROR_INSUFFICIENT_BUFFER →
          (formatProperty fos psize p ud).2
            = [fmtSizingCall psize p ud,
               fmtDataCall psize p ud (fos.size (fmtSizingCall psize p ud)).2]
          ∧ ((fos.data (fmtDataCall psize p ud (fos.size (fmtSizingCall psize p ud)).2)).1
                = ERROR_SUCCESS →
              (formatProperty fos psize p ud).1
                = Except.ok
                    (fos.data (fmtDataCall psize p ud (fos.size (fmtSizingCall psize p ud)).2)).2)
          ∧ ((fos.data (fmtDataCall psize p ud (fos.size (fmtSizingCall psize p ud)).2)).1
                ≠ ERROR_SUCCESS →
              (formatProperty fos psize p ud).1
                = Except.error
                    (fos.data
                      (fmtDataCall psize p ud (fos.size (fmtSizingCall psize p ud)).2)).1))) := by
  constructor
  · by_cases h : gos.size.1 = ERROR_INSUFFICIENT_BUFFER
    · refine ⟨?_, fun hne => absurd h hne, fun _ => ⟨?_, ?_, ?_⟩⟩
      · simp [getEventInformation, h, List.filter]
      · simp [getEventInformation, h]
      · intro hs; simp [getEventInformation, h, hs]
      · intro hs; simp [getEventInformation, h, hs]
    · refine ⟨?_, fun _ => ?_, fun heq => absurd heq h⟩
      · simp [getEventInformation, h, List.filter]
      · simp [getEventInformation, h]
  · have hb0 : (fmtSizingCall psize p ud).hasBuffer = false := rfl
    have hb1 : ∀ n, (fmtDataCall psize p ud n).hasBuffer = true := fun _ => rfl
    by_cases h : (fos.size (fmtSizingCall psize p ud)).1 = ERROR_INSUFFICIENT_BUFFER
    · refine ⟨?_, fun hne => absurd h hne, fun _ => ⟨?_, ?_, ?_⟩⟩
      · simp [formatProperty, h, List.filter, hb0, hb1]
      · simp [formatProperty, h]
      · intro hs; simp [formatProperty, h, hs]
      · intro hs; simp [formatProperty, h, hs]
    · refine ⟨?_, fun _ => ?_, fun heq => absurd heq h⟩
      · simp [formatProperty, h, List.filter, hb0]
      · simp [formatProperty, h]

/-- Witness for C1: the two-phase protocol evaluated on concrete oracles.  The first oracle
reports an immediate success on the sizing call, which the resolver must reject; the second
follows the expected sequence, and the decoder returns the formatted buffer. -/
theorem c1_two_phase_protocol_witness :
    getEventInformation ⟨(0, 5), fun n => (0, List.replicate n 7)⟩
      = (Except.error 0, [⟨false, 0⟩])
    ∧ (formatProperty sampleFmtOracle 8 ⟨0, 1, 0, 2⟩ [10, 20]).1
      = Except.ok ([72, 0, 99], 2) := by
  constructor
  · exact ((c1_two_phase_protocol ⟨(0, 5), fun n => (0, List.replicate n 7)⟩
      sampleFmtOracle 8 ⟨0, 1, 0, 2⟩ [10, 20]).1.2.1 (by decide))
  · have h := ((c1_two_phase_protocol ⟨(0, 5), fun n => (0, List.replicate n 7)⟩
      sampleFmtOracle 8 ⟨0, 1, 0, 2⟩ [10, 20]).2.2.2 (by decide)).2.1 (by decide)
    simpa using h

/-- C9: For every property descriptor whose out type is 0, format_property uses the declared
in type as the display type, so two descriptors differing only in that one has out type 0 and
the other has out type equal to the in type format identically; for a descriptor with nonzero
out type, every call passes the out type as the display type while still passing the in type
as the native type. -/
theorem c9_out_type_fallback (os : FormatOracle) (psize : Nat) (p : EventPropertyInfo)
    (ud : List Nat) :
    (∀ c ∈ (formatProperty os psize p ud).2,
        c.inType = p.inType
        ∧ c.displayType = (if p.outType = 0 then p.inType else p.outType)
        ∧ c.userdata = ud)
    ∧ (∀ q : EventPropertyInfo, q.inType = p.inType → q.length = p.length →
        p.outType = 0 → q.outType = p.inType →
        formatProperty os psize p ud = formatProperty os psize q ud) := by
  constructor
  · intro c hc
    by_cases h : (os.size (fmtSizingCall psize p ud)).1 = ERROR_INSUFFICIENT_BUFFER
    · simp [formatProperty, h] at hc
      rcases hc with rfl | rfl <;> simp [fmtSizingCall, fmtDataCall]
    · simp [formatProperty, h] at hc
      subst hc; simp [fmtSizingCall]
  · intro q hin hlen hp hq
    have hc0 : fmtSizingCall psize q ud = fmtSizingCall psize p ud := by
      by_cases hz : p.inType = 0 <;> simp [fmtSizingCall, hin, hlen, hp, hq, hz]
    have hc1 : ∀ n, fmtDataCall psize q ud n = fmtDataCall psize p ud n := by
      intro n
      by_cases hz : p.inType = 0 <;> simp [fmtDataCall, hin, hlen, hp, hq, hz]
    simp only [formatProperty, hc0, hc1]

/-- Witness for C9: two concrete descriptors differing only in the out type (0 versus the in
type) produce identical results against the sample oracle. -/
theorem c9_out_type_fallback_witness :
    formatProperty sampleFmtOracle 8 ⟨0, 1, 0, 2⟩ [10, 20]
      = formatProperty sampleFmtOracle 8 ⟨0, 1, 1, 2⟩ [10, 20] :=
  (c9_out_type_fallback sampleFmtOracle 8 ⟨0, 1, 0, 2⟩ [10, 20]).2
    ⟨0, 1, 1, 2⟩ rfl rfl rfl rfl

/-- C3: The Event Projector resolves a schema only when the event's opcode is in the accepted
list [1] and the payload length is nonzero; every other event is returned without any
schema-resolution call and without an error.  When the event is accepted, exactly one
schema-resolution call is made. -/
theorem c3_opcode_and_payload_filter (resolve : Except Nat TraceEventInfo)
    (os : FormatOracle) (rec : EventRecord) :
    (rec.opcode ≠ 1 ∨ rec.userData.length = 0 →
        onProcessCreation resolve os rec = (ProjOutcome.filtered, 0))
    ∧ (rec.opcode = 1 → rec.userData.length ≠ 0 →
        (onProcessCreation resolve os rec).2 = 1) := by
  constructor
  · intro h
    rcases h with h | h
    · have hc : ([1] : List Nat).contains rec.opcode = false := by
        simp [List.contains, h]
      simp [onProcessCreation, hc]
      exact fun h1 _ => absurd h1 h
    · simp [onProcessCreation, h]
  · intro h1 h2
    have hc : ([1] : List Nat).contains rec.opcode = true := by
      simp [List.contains, h1]
    simp only [onProcessCreation, hc]
    simp only [Bool.true_eq_false, false_or]
    rw [if_neg h2]
    cases resolve with
    | error e => rfl
    | ok ti =>
      cases hpl : projectLoop os ti.buf (pointerSizeOf rec.flags)
          (ti.props.take ti.topLevelPropertyCount) rec.userData [] with
      | none => simp [hpl]
      | some res => simp [hpl]

/-- Witness for C3: an event with opcode 2 is filtered with no schema-resolution call, and an
accepted event with opcode 1 and a nonempty payload makes exactly one. -/
theorem c3_opcode_and_payload_filter_witness :
    onProcessCreation (Except.ok sampleTraceInfo) sampleFmtOracle ⟨2, 0, 7, [1, 2]⟩
      = (ProjOutcome.filtered, 0)
    ∧ (onProcessCreation (Except.ok sampleTraceInfo) sampleFmtOracle sampleRecord).2 = 1 :=
  ⟨(c3_opcode_and_payload_filter (Except.ok sampleTraceInfo) sampleFmtOracle
      ⟨2, 0, 7, [1, 2]⟩).1 (Or.inl (by decide)),
   (c3_opcode_and_payload_filter (Except.ok sampleTraceInfo) sampleFmtOracle
      sampleRecord).2 rfl (by decide)⟩

/-- C4: The cancellation flag is write-once: the first set attempt sets it and reports
success, every later attempt is a rejected no-op that leaves it set, and once set it remains
set; once set, the buffer-availability checkpoint returns 0, the value telling the pump to
stop; and a pump whose flag is set at its first checkpoint returns normally having processed
no events. -/
theorem c4_cancellation_write_once :
    sigintSet none = (true, some ())
    ∧ (∀ u : Unit, sigintSet (some u) = (false, some u))
    ∧ (∀ flag : Option Unit, (sigintSet flag).2 = some ())
    ∧ onTermination (some ()) = 0
    ∧ onTermination none = 1
    ∧ (∀ (flagAt : Nat → Option Unit) (bufs : List (List Nat)) (i : Nat),
        flagAt i = some () → pumpRun flagAt bufs i = []) := by
  refine ⟨rfl, fun u => by cases u; rfl, fun flag => by cases flag with
    | none => rfl
    | some u => cases u; rfl, rfl, rfl, ?_⟩
  intro flagAt bufs i h
  cases bufs with
  | nil => rfl
  | cons b bs => simp [pumpRun, onTermination, h]

/-- Witness for C4: with the flag set before the first checkpoint, a pump holding two
nonempty buffers delivers no events. -/
theorem c4_cancellation_write_once_witness :
    pumpRun (fun _ => some ()) [[1, 2], [3]] 0 = [] :=
  c4_cancellation_write_once.2.2.2.2.2 (fun _ => some ()) [[1, 2], [3]] 0 rfl

/-- C5 counterexample: the claim states that Consumer::new fails fatally when the OS reports
the consumption handle could not be opened; in the source the open result is stored without
any inspection, so construction with the invalid handle value succeeds. -/
theorem c5_counterexample :
    ¬ consumerNew INVALID_PROCESSTRACE_HANDLE (some 0) = none := by
  simp [consumerNew]

/-- C5 amended: Consumer::new performs no check on the handle the open call returns; it
stores it unconditionally, succeeding even for the invalid handle value, and fails only when
the current-time conversion fails. -/
theorem c5_open_result_unchecked (h t : Nat) :
    (consumerNew h (some t)).isSome = true
    ∧ consumerNew INVALID_PROCESSTRACE_HANDLE (some t)
        = some ⟨INVALID_PROCESSTRACE_HANDLE, t⟩
    ∧ consumerNew h none = none :=
  ⟨rfl, rfl, rfl⟩

/-- C6: Every non-success status returned by the blocking pump is fatal; each of the mapped
conditions (invalid handle count, invalid session handle, end time before start time, invalid
parameter combination, an exception in a callback, session not running in real-time mode)
produces its own human-readable fatal message, pairwise distinct; and every status outside
the match arms falls into the unspecified-error message carrying the numeric code. -/
theorem c6_pump_statuses (status : Nat) :
    (status ≠ ERROR_SUCCESS → startListening status ≠ PumpOutcome.normal)
    ∧ startListening ERROR_BAD_LENGTH = PumpOutcome.fatal MSG_BAD_LENGTH
    ∧ startListening ERROR_INVALID_HANDLE = PumpOutcome.fatal MSG_INVALID_HANDLE
    ∧ startListening ERROR_INVALID_TIME = PumpOutcome.fatal MSG_INVALID_TIME
    ∧ startListening ERROR_INVALID_PARAMETER = PumpOutcome.fatal MSG_INVALID_PARAMETER
    ∧ startListening ERROR_NOACCESS = PumpOutcome.fatal MSG_CALLBACK_EXCEPTION
    ∧ startListening ERROR_WMI_INSTANCE_NOT_FOUND = PumpOutcome.fatal MSG_NOT_REALTIME
    ∧ List.Pairwise (fun a b => a ≠ b)
        [MSG_BAD_LENGTH, MSG_INVALID_HANDLE, MSG_INVALID_TIME, MSG_INVALID_PARAMETER,
         MSG_CALLBACK_EXCEPTION, MSG_NOT_REALTIME]
    ∧ (status ∉ [ERROR_SUCCESS, ERROR_BAD_LENGTH, ERROR_INVALID_HANDLE, ERROR_INVALID_TIME,
          ERROR_INVALID_PARAMETER, ERROR_NOACCESS, ERROR_CANCELLED,
          ERROR_WMI_INSTANCE_NOT_FOUND] →
        startListening status = PumpOutcome.fatal (MSG_UNSPECIFIED status)) := by
  refine ⟨?_, by decide, by decide, by decide, by decide, by decide, by decide, by decide, ?_⟩
  · intro hne hcontra
    unfold startListening at hcontra
    split_ifs at hcontra with h0 h1 h2 h3 h4 h5 h6 h7
    exact hne h0
  · intro hmem
    simp only [List.mem_cons, List.not_mem_nil, or_false, not_or] at hmem
    obtain ⟨h0, h1, h2, h3, h4, h5, h6, h7⟩ := hmem
    simp [startListening, h0, h1, h2, h3, h4, h5, h6, h7]

/-- Witness for C6: status 50 is not success and is unmapped, so it is fatal with the
unspecified-error message carrying the code 50. -/
theorem c6_pump_statuses_witness :
    startListening 50 ≠ PumpOutcome.normal
    ∧ startListening 50 = PumpOutcome.fatal (MSG_UNSPECIFIED 50) :=
  ⟨(c6_pump_statuses 50).1 (by decide),
   (c6_pump_statuses 50).2.2.2.2.2.2.2.2 (by decide)⟩

/-- C7 counterexample: the claim states that on Drop the stop operation is invoked if and
only if the held control handle differs from the invalid sentinel, the sentinel value being
0; in the source the comparison is against INVALID_HANDLE_VALUE (the all-ones value), so a
controller whose handle is 0 does issue the stop call, refuting the stated equivalence. -/
theorem c7_counterexample :
    ¬ (∀ c : Controller, (controllerDrop c).isSome = true ↔ c.traceHandle ≠ 0) := by
  intro hclaim
  have h := (hclaim c7SampleController).mp (by decide)
  exact h rfl

/-- C7 amended: on Drop the stop operation is invoked if and only if the held handle differs
from INVALID_HANDLE_VALUE, the all-ones 64-bit value (a handle of 0 therefore does trigger a
stop attempt), and the issued call carries the stored handle, the same session name and the
same properties block passed at start, with the stop control code. -/
theorem c7_drop_sentinel (c : Controller) :
    ((controllerDrop c).isSome = true ↔ c.traceHandle ≠ INVALID_HANDLE_VALUE)
    ∧ (∀ sc : StopCall, controllerDrop c = some sc →
        sc.handle = c.traceHandle ∧ sc.sessionName = c.sessionName
        ∧ sc.propsData = c.eventPropBuf.data ∧ sc.controlCode = EVENT_TRACE_CONTROL_STOP) := by
  constructor
  · by_cases h : c.traceHandle = INVALID_HANDLE_VALUE
    · simp [controllerDrop, h]
    · simp [controllerDrop, h]
  · intro sc hsc
    by_cases h : c.traceHandle = INVALID_HANDLE_VALUE
    · simp [controllerDrop, h] at hsc
    · simp [controllerDrop, h] at hsc
      simp [← hsc]

/-- Witness for C7: the sample controller with handle 0 issues a stop call carrying its
session name, properties bytes and the stop control code. -/
theorem c7_drop_sentinel_witness :
    (⟨0, [78, 84, 0], [9, 9], EVENT_TRACE_CONTROL_STOP⟩ : StopCall).handle
        = c7SampleController.traceHandle
    ∧ (⟨0, [78, 84, 0], [9, 9], EVENT_TRACE_CONTROL_STOP⟩ : StopCall).sessionName
        = c7SampleController.sessionName :=
  ⟨((c7_drop_sentinel c7SampleController).2
      ⟨0, [78, 84, 0], [9, 9], EVENT_TRACE_CONTROL_STOP⟩ (by decide)).1,
   ((c7_drop_sentinel c7SampleController).2
      ⟨0, [78, 84, 0], [9, 9], EVENT_TRACE_CONTROL_STOP⟩ (by decide)).2.1⟩

/-- C8 counterexample: the claim states that after Controller::new constructs the session
properties block, the buffer holds the fixed-size header followed immediately by the
NUL-terminated session name bytes; in the source only the raw header bytes are copied into
the buffer and the name is never appended (the OS start call copies it later), refuted here
on the two-byte name [65, 0]. -/
theorem c8_counterexample :
    ¬ ((controllerBuildBuf [65, 0]).data
        = etwPropsBytes (controllerProps [65, 0]) ++ [65, 0]) := by
  intro h
  have hl := congrArg List.length h
  simp [controllerBuildBuf] at hl

/-- C8 amended: after Controller::new constructs the session properties block, the buffer
holds exactly the 120 header bytes (the session name is not appended by the constructor); the
header's logger-name offset field equals the header's byte size, and the header's declared
total buffer size (and the requested capacity) equals header size plus session-name byte
length including the NUL terminator. -/
theorem c8_props_block_layout (nm : List Nat) :
    (controllerBuildBuf nm).data = etwPropsBytes (controllerProps nm)
    ∧ (controllerBuildBuf nm).data.length = EVENT_TRACE_PROPERTIES_SIZE
    ∧ (controllerProps nm).loggerNameOffset = EVENT_TRACE_PROPERTIES_SIZE
    ∧ (controllerProps nm).wnode.bufferSize = EVENT_TRACE_PROPERTIES_SIZE + nm.length
    ∧ (controllerBuildBuf nm).cap = EVENT_TRACE_PROPERTIES_SIZE + nm.length := by
  refine ⟨rfl, ?_, rfl, rfl, rfl⟩
  simp [controllerBuildBuf, etwPropsBytes, wnodeBytes, u32le, u64le,
    SystemTraceControlGuidBytes, EVENT_TRACE_PROPERTIES_SIZE, controllerProps]

/-- Helper for C2: when the lazy byte-pair pipeline of the source completes without the
partial-chunk panic, its result is exactly the code units before the first zero unit. -/
theorem u16units_eq_pairUp :
    ∀ (bs l : List Nat), u16unitsUntilNul bs = some l →
      l = (pairUp bs).takeWhile (fun u => u != 0)
  | [], l, h => by
      simp [u16unitsUntilNul] at h
      subst h
      rfl
  | [_], l, h => by
      simp [u16unitsUntilNul] at h
  | a :: b :: rest, l, h => by
      by_cases hz : a + 256 * b = 0
      · simp [u16unitsUntilNul, hz] at h
        subst h
        simp [pairUp, List.takeWhile_cons, hz]
      · simp only [u16unitsUntilNul, if_neg hz] at h
        cases hrec : u16unitsUntilNul rest with
        | none => rw [hrec] at h; simp at h
        | some l2 =>
          rw [hrec] at h
          simp only [Option.map_some', Option.some.injEq] at h
          subst h
          have ih := u16units_eq_pairUp rest l2 hrec
          simp [pairUp, List.takeWhile_cons, hz, ih]

/-- Helper for C2: when the name decode of the source completes without panicking, its result
agrees with the specification-side reading of UTF-16 units up to the first zero unit. -/
theorem decodeName_eq_spec (buf : List Nat) (off : Nat) (name : List Nat)
    (h : decodeName buf off = some name) : name = specNameUnits buf off := by
  unfold decodeName at h
  split at h
  · exact u16units_eq_pairUp _ _ h
  · cases h

/-- Helper for C2: under per-property success of the decoder, in-bounds consumption counts
and well-formed names, the decode loop of the source returns exactly the map computed by the
specification-side loop. -/
theorem projectLoop_eq_spec (os : FormatOracle) (buf : List Nat) (psize : Nat) :
    ∀ ps : List EventPropertyInfo,
      (∀ p ∈ ps, ∀ ud : List Nat,
          (formatProperty os psize p ud).1 = Except.ok (specDec os psize p ud)) →
      (∀ p ∈ ps, ∀ ud : List Nat, (specDec os psize p ud).2 ≤ ud.length) →
      (∀ p ∈ ps, (decodeName buf p.nameOffset).isSome = true) →
      ∀ (ud : List Nat) (m : List (List Nat × List Nat)),
        ∃ steps, projectLoop os buf psize ps ud m
          = some (projectSpecLoop os psize buf ps ud m, steps) := by
  intro ps
  induction ps with
  | nil =>
    intro _ _ _ ud m
    exact ⟨[], by simp [projectLoop, projectSpecLoop]⟩
  | cons p ps ih =>
    intro h1 h2 h3 ud m
    obtain ⟨name, hn⟩ := Option.isSome_iff_exists.mp (h3 p (by simp))
    obtain ⟨steps, hs⟩ := ih
      (fun q hq ud2 => h1 q (by simp [hq]) ud2)
      (fun q hq ud2 => h2 q (by simp [hq]) ud2)
      (fun q hq => h3 q (by simp [hq]))
      (ud.drop (specDec os psize p ud).2)
      (mapInsert m name (truncAtNul (specDec os psize p ud).1))
    refine ⟨⟨p, ud, name, truncAtNul (specDec os psize p ud).1, (specDec os psize p ud).2⟩
      :: steps, ?_⟩
    have hf := h1 p (by simp) ud
    have hc := h2 p (by simp) ud
    have hnm := decodeName_eq_spec buf p.nameOffset name hn
    simp only [projectLoop, hf, hn, Except.toOption, Option.some_bind, if_pos hc, hs,
      projectSpecLoop]
    rw [hnm]

/-- C2: For every accepted event (opcode 1, nonempty payload) whose per-property decodes
succeed with in-bounds consumption counts and whose names decode without panicking, the Event
Projector resolves the schema exactly once and produces exactly the map described by the
specification: it walks the first TopLevelPropertyCount entries in schema order, reads each
name as UTF-16 units at the recorded offset up to the first zero unit, decodes each value
against the current remaining payload slice truncated at its first zero unit, inserts the
pair, and advances the cursor by exactly the reported consumed byte count. -/
theorem c2_decode_loop_matches_spec (os : FormatOracle) (rec : EventRecord)
    (ti : TraceEventInfo)
    (hop : rec.opcode = 1) (hud : rec.userData.length ≠ 0)
    (hfmt : ∀ p ∈ ti.props.take ti.topLevelPropertyCount, ∀ ud : List Nat,
        (formatProperty os (pointerSizeOf rec.flags) p ud).1
          = Except.ok (specDec os (pointerSizeOf rec.flags) p ud))
    (hcons : ∀ p ∈ ti.props.take ti.topLevelPropertyCount, ∀ ud : List Nat,
        (specDec os (pointerSizeOf rec.flags) p ud).2 ≤ ud.length)
    (hname : ∀ p ∈ ti.props.take ti.topLevelPropertyCount,
        (decodeName ti.buf p.nameOffset).isSome = true) :
    outcomeMap (onProcessCreation (Except.ok ti) os rec).1
      = some (projectSpecLoop os (pointerSizeOf rec.flags) ti.buf
          (ti.props.take ti.topLevelPropertyCount) rec.userData [])
    ∧ (onProcessCreation (Except.ok ti) os rec).2 = 1 := by
  obtain ⟨steps, hs⟩ := projectLoop_eq_spec os ti.buf (pointerSizeOf rec.flags)
    (ti.props.take ti.topLevelPropertyCount) hfmt hcons hname rec.userData []
  have hc : ([1] : List Nat).contains rec.opcode = true := by
    simp [List.contains]
    exact hop
  have hgate : ¬ (([1] : List Nat).contains rec.opcode = false
      ∨ rec.userData.length = 0) := by
    intro hor
    rcases hor with hfalse | hlen
    · rw [hc] at hfalse
      cases hfalse
    · exact hud hlen
  constructor
  · simp only [onProcessCreation]
    rw [if_neg hgate]
    simp only [hs, outcomeMap]
  · simp only [onProcessCreation]
    rw [if_neg hgate]
    simp [hs]

/-- Witness for C2: on the sample oracle, schema and accepted record, the projector produces
the two-entry map named by the code units 65 and 66, both values truncated at the first zero
unit, with one schema resolution. -/
theorem c2_decode_loop_matches_spec_witness :
    outcomeMap (onProcessCreation (Except.ok sampleTraceInfo) sampleFmtOracle sampleRecord).1
      = some [([65], [72]), ([66], [72])]
    ∧ (onProcessCreation (Except.ok sampleTraceInfo) sampleFmtOracle sampleRecord).2 = 1 := by
  have h := c2_decode_loop_matches_spec sampleFmtOracle sampleRecord sampleTraceInfo
    rfl (by decide)
    (fun p _ ud => rfl)
    (fun p _ ud => Nat.min_le_right 2 ud.length)
    (by decide)
  refine ⟨h.1.trans ?_, h.2⟩
  decide

/-- Helper for C10: whenever the decode loop completes, the consumed byte counts sum to at
most the length of the payload slice it started from, and no single step consumed more than
the remaining slice it was shown. -/
theorem projectLoop_consumed_le (os : FormatOracle) (buf : List Nat) (psize : Nat) :
    ∀ (ps : List EventPropertyInfo) (ud : List Nat) (m m2 : List (List Nat × List Nat))
      (steps : List ProjStep),
      projectLoop os buf psize ps ud m = some (m2, steps) →
      (steps.map ProjStep.consumed).sum ≤ ud.length
      ∧ ∀ st ∈ steps, st.consumed ≤ st.udArg.length := by
  intro ps
  induction ps with
  | nil =>
    intro ud m m2 steps h
    simp [projectLoop] at h
    obtain ⟨_, h2⟩ := h
    subst h2
    simp
  | cons p ps ih =>
    intro ud m m2 steps h
    simp only [projectLoop] at h
    cases hf : (formatProperty os psize p ud).1 with
    | error e => rw [hf] at h; simp [Except.toOption] at h
    | ok r =>
      rw [hf] at h
      simp only [Except.toOption, Option.some_bind] at h
      cases hn : decodeName buf p.nameOffset with
      | none => rw [hn] at h; simp at h
      | some name =>
        rw [hn] at h
        simp only [Option.some_bind] at h
        by_cases hc : r.2 ≤ ud.length
        · rw [if_pos hc] at h
          cases hrec : projectLoop os buf psize ps (ud.drop r.2)
              (mapInsert m name (truncAtNul r.1)) with
          | none => rw [hrec] at h; simp at h
          | some res =>
            rw [hrec] at h
            simp only [Option.some_bind, Option.some.injEq, Prod.mk.injEq] at h
            obtain ⟨h1, h2⟩ := h
            subst h2
            obtain ⟨ihsum, ihmem⟩ := ih (ud.drop r.2)
              (mapInsert m name (truncAtNul r.1)) res.1 res.2 hrec
            constructor
            · simp only [List.map_cons, List.sum_cons]
              have hdrop : (ud.drop r.2).length = ud.length - r.2 := by
                simp [List.length_drop]
              rw [hdrop] at ihsum
              omega
            · intro st hst
              rcases List.mem_cons.mp hst with hst | hst
              · subst hst; exact hc
              · exact ihmem st hst
        · rw [if_neg hc] at h
          simp at h

/-- C10: Whenever the Event Projector completes processing all top-level properties of an
event, the total number of payload bytes consumed is at most the event's declared payload
length, and no per-property advance moved the cursor past the end of the remaining payload
slice it was shown. -/
theorem c10_consumption_bounded (resolve : Except Nat TraceEventInfo) (os : FormatOracle)
    (rec : EventRecord) (m : List (List Nat × List Nat)) (steps : List ProjStep)
    (h : (onProcessCreation resolve os rec).1 = ProjOutcome.done m steps) :
    (steps.map ProjStep.consumed).sum ≤ rec.userData.length
    ∧ ∀ st ∈ steps, st.consumed ≤ st.udArg.length := by
  unfold onProcessCreation at h
  split at h
  · simp at h
  · split at h
    · simp at h
    · split at h
      · simp at h
      · rename_i ti hscrut res hpl
        simp only [ProjOutcome.done.injEq] at h
        obtain ⟨h1, h2⟩ := h
        refine projectLoop_consumed_le os ti.buf (pointerSizeOf rec.flags)
          (ti.props.take ti.topLevelPropertyCount) rec.userData [] m steps ?_
        rw [hpl, ← h1, ← h2]

/-- Witness for C10: the sample run completes with two steps consuming two bytes each, and
their sum 4 is at most the four-byte payload length. -/
theorem c10_consumption_bounded_witness :
    (([⟨⟨0, 1, 0, 2⟩, [10, 20, 30, 40], [65], [72], 2⟩,
       ⟨⟨4, 1, 0, 2⟩, [30, 40], [66], [72], 2⟩] : List ProjStep).map ProjStep.consumed).sum
      ≤ sampleRecord.userData.length :=
  (c10_consumption_bounded (Except.ok sampleTraceInfo) sampleFmtOracle sampleRecord
    [([65], [72]), ([66], [72])]
    [⟨⟨0, 1, 0, 2⟩, [10, 20, 30, 40], [65], [72], 2⟩,
     ⟨⟨4, 1, 0, 2⟩, [30, 40], [66], [72], 2⟩] (by decide)).1

end EtwTool
